import Mathlib

/-!
Verification development for `src/HF_downloader.py`, a single-file command-line
utility that downloads a Hugging Face model repository into a local directory,
optionally falling back to an insecure (TLS-verification-disabled) git clone,
then checks the destination for a minimal required file set and prints a
truncated file listing.

The script is embedded shallowly:

* A destination directory root is a `List String` of the filenames present at
  the root (`check_required_files` only performs root-level existence checks).
* The recursive destination tree walked by `print_summary` is a `DirTree`
  (a directory holds a list of `(name, size)` files and a forest of subdirs);
  `DirTree.walkFiles` mirrors the file order produced by `os.walk` (top-down:
  the current directory's files, then each subdirectory in order).
* Observable console/side effects of the driver are modelled as an `Event`
  trace; the external collaborators (snapshot download, git clone, git-lfs)
  are oracles in `Env` saying whether each external call succeeds.
* `main` returns its event trace, the process exit status (0 on normal return,
  2 / 3 for the two `sys.exit` calls), the final destination state
  (`none` = the destination path does not exist), and the missing-items
  report when the completeness check ran.
-/

/-- Root-level existence check `(out_dir / f).exists()` on a destination root
modelled as the list of names present at the root. -/
def hasFile (out_dir : List String) (f : String) : Bool :=
  out_dir.contains f

/-- Embedding of `check_required_files` (src/HF_downloader.py lines 29-39):
builds the `missing` list by appending, in order, the label of each unmet
requirement.  The `modules.json` probe on lines 37-38 only prints a warning
and never touches `missing`; its print is modelled by
`check_required_files_warning` below. -/
def check_required_files (out_dir : List String) : List String :=
  let missing : List String := []
  let missing :=
    if !(hasFile out_dir "config.json") then
      missing ++ ["config.json"]
    else missing
  let missing :=
    if !(hasFile out_dir "model.safetensors" || hasFile out_dir "pytorch_model.bin") then
      missing ++ ["model.safetensors or pytorch_model.bin"]
    else missing
  let missing :=
    if !(["tokenizer.json", "tokenizer_config.json", "sentencepiece.bpe.model",
          "vocab.txt"].any (fun f => hasFile out_dir f)) then
      missing ++ ["tokenizer.json or tokenizer_config.json or sentencepiece.bpe.model or vocab.txt"]
    else missing
  missing

/-- The warning lines printed by `check_required_files` (line 38): a single
advisory warning when `modules.json` is absent, nothing otherwise. -/
def check_required_files_warning (out_dir : List String) : List String :=
  if !(hasFile out_dir "modules.json") then
    ["warning: modules.json not found (may be fine); if model uses dynamic modules this file should be present."]
  else []

/-- A destination directory tree: the files directly in this directory (with
their byte sizes) and its subdirectories.  This is the structure that
`os.walk` traverses in `print_summary`. -/
inductive DirTree where
  | node : List (String × Nat) → List DirTree → DirTree

mutual

/-- The sequence of `(relative name, size)` files yielded by
`os.walk(out_dir)` in top-down order: the current directory's files first,
then the files of each subdirectory in order (src/HF_downloader.py
lines 44-45). -/
def DirTree.walkFiles : DirTree → List (String × Nat)
  | .node files subdirs => files ++ DirTree.walkForest subdirs

/-- Files of a forest of subdirectories, in order. -/
def DirTree.walkForest : List DirTree → List (String × Nat)
  | [] => []
  | t :: ts => t.walkFiles ++ DirTree.walkForest ts

end

/-- One line printed by `print_summary`: the header naming the destination,
a per-file entry with its size, or the truncation notice. -/
inductive SummaryLine where
  | header : String → SummaryLine
  | entry : String → Nat → SummaryLine
  | truncated : Nat → SummaryLine
deriving DecidableEq

/-- The per-file loop of `print_summary` (lines 44-56): print an entry for
each walked file, incrementing `count`; as soon as `count` reaches
`max_files` after printing an entry, print the truncation notice and
return. -/
def summaryLines (max_files : Nat) : List (String × Nat) → Nat → List SummaryLine
  | [], _ => []
  | (name, size) :: rest, count =>
    SummaryLine.entry name size ::
      (if count + 1 ≥ max_files then [SummaryLine.truncated max_files]
       else summaryLines max_files rest (count + 1))

/-- Embedding of `print_summary` (lines 41-56): the header line followed by
the walked file entries, truncated after `max_files` entries.  The script
always calls it with the default `max_files = 40`. -/
def print_summary (out_dir_name : String) (out_dir : DirTree) (max_files : Nat) : List SummaryLine :=
  SummaryLine.header out_dir_name :: summaryLines max_files (DirTree.walkFiles out_dir) 0

/-- Observable actions of one run, in program order. -/
inductive Event where
  | removeTree
  | warnExisting
  | snapshotAttempt
  | insecureWarning
  | gitClone
  | lfsInstall
  | lfsPull
  | lfsMissingWarning
  | cloneFailMessage
  | completenessCheck
  | summary
deriving DecidableEq

/-- The parsed command-line arguments (`parse_args`, lines 58-72). -/
structure Args where
  repo : String
  out : String
  token : Option String
  no_symlinks : Bool
  force : Bool
  no_insecure : Bool

/-- Oracles for the external collaborators: whether `snapshot_download`
succeeds and what the destination root then contains, whether the insecure
`git clone` subprocess succeeds and what the root then contains, whether the
`git`/`git-lfs` tool is found for the LFS sub-steps, and the (discarded,
`check=False`) exit statuses of `git lfs install` / `git lfs pull`. -/
structure Env where
  snapshotOk : Bool
  snapshotFiles : List String
  cloneOk : Bool
  cloneFiles : List String
  lfsToolFound : Bool
  lfsInstallOk : Bool
  lfsPullOk : Bool

/-- Embedding of `run_insecure_git_clone` (lines 85-112): prints the insecure
warning, runs `git clone` with TLS verification disabled; on clone failure
prints an error and returns `false`.  On success it runs `git lfs install`
and `git lfs pull` with `check=False` — their exit statuses (`lfsInstallOk`,
`lfsPullOk`) are discarded by the script — catching only a missing tool
(`FileNotFoundError`), and returns `true` in every such case. -/
def run_insecure_git_clone (cloneOk lfsToolFound _lfsInstallOk _lfsPullOk : Bool) :
    Bool × List Event :=
  let pre := [Event.insecureWarning, Event.gitClone]
  if cloneOk then
    (true, pre ++ (if lfsToolFound then [Event.lfsInstall, Event.lfsPull]
                   else [Event.lfsMissingWarning]))
  else
    (false, pre ++ [Event.cloneFailMessage])

/-- The outcome of one run of the script. -/
structure RunResult where
  events : List Event
  exitCode : Nat
  fsFinal : Option (List String)
  missingReport : Option (List String)

/-- Embedding of the script's `main` (lines 114-163) together with the `sys.exit(main())`
driver on line 166.  `fs0` is the destination root before the run (`none` =
the path does not exist, `some d` = it exists with root contents `d`).
Destination preparation (lines 121-126): an existing destination is removed
when `--force` is set, otherwise a warning is printed and the run continues.
Then the primary fetch is attempted; on failure either the run aborts with
status 2 (`--no-insecure`) or the insecure fallback runs, aborting with
status 3 if the clone fails.  After a successful download path the
completeness check and summary run and `main` returns 0. -/
def mainRun (args : Args) (env : Env) (fs0 : Option (List String)) : RunResult :=
  let prep : List Event × Option (List String) :=
    match fs0 with
    | some _ => if args.force then ([Event.removeTree], none) else ([Event.warnExisting], fs0)
    | none => ([], none)
  if env.snapshotOk then
    { events := prep.1 ++ [Event.snapshotAttempt, Event.completenessCheck, Event.summary]
      exitCode := 0
      fsFinal := some env.snapshotFiles
      missingReport := some (check_required_files env.snapshotFiles) }
  else if args.no_insecure then
    { events := prep.1 ++ [Event.snapshotAttempt]
      exitCode := 2
      fsFinal := prep.2
      missingReport := none }
  else
    let r := run_insecure_git_clone env.cloneOk env.lfsToolFound env.lfsInstallOk env.lfsPullOk
    if r.1 then
      { events := prep.1 ++ [Event.snapshotAttempt] ++ r.2 ++ [Event.completenessCheck, Event.summary]
        exitCode := 0
        fsFinal := some env.cloneFiles
        missingReport := some (check_required_files env.cloneFiles) }
    else
      { events := prep.1 ++ [Event.snapshotAttempt] ++ r.2
        exitCode := 3
        fsFinal := prep.2
        missingReport := none }

/-! Helper lemmas shared by the claim theorems. -/

/-- Root existence checks ignore a list head that is a different filename. -/
theorem hasFile_cons_ne (f g : String) (l : List String) (h : (f == g) = false) :
    hasFile (g :: l) f = hasFile l f := by
  have h' : f ≠ g := by simpa using h
  simp [hasFile, List.contains_cons, h']

/-- Closed form of `check_required_files`: the concatenation, in order, of the
labels of the unmet requirements. -/
theorem check_required_files_eq (out_dir : List String) :
    check_required_files out_dir =
      (if hasFile out_dir "config.json" then [] else ["config.json"]) ++
      (if hasFile out_dir "model.safetensors" || hasFile out_dir "pytorch_model.bin" then []
       else ["model.safetensors or pytorch_model.bin"]) ++
      (if ["tokenizer.json", "tokenizer_config.json", "sentencepiece.bpe.model",
           "vocab.txt"].any (fun f => hasFile out_dir f) then []
       else ["tokenizer.json or tokenizer_config.json or sentencepiece.bpe.model or vocab.txt"]) := by
  unfold check_required_files
  cases h1 : hasFile out_dir "config.json" <;>
  cases h2 : (hasFile out_dir "model.safetensors" || hasFile out_dir "pytorch_model.bin") <;>
  cases h3 : (["tokenizer.json", "tokenizer_config.json", "sentencepiece.bpe.model",
               "vocab.txt"].any (fun f => hasFile out_dir f)) <;>
  simp [h1, h2, h3]

/-- When at least `cap - count` files remain to be printed (and the cap is not
yet reached), the per-file loop prints exactly the next `cap - count` entries
and then the truncation notice. -/
theorem summaryLines_spec (cap : Nat) :
    ∀ (fs : List (String × Nat)) (count : Nat), count < cap → cap ≤ fs.length + count →
    summaryLines cap fs count =
      (fs.take (cap - count)).map (fun p => SummaryLine.entry p.1 p.2) ++
        [SummaryLine.truncated cap]
  | [], count, h1, h2 => by simp at h2; omega
  | (name, size) :: rest, count, h1, h2 => by
    by_cases hc : count + 1 ≥ cap
    · have hcap : cap - count = 1 := by omega
      simp [summaryLines, if_pos hc, hcap]
    · have h2' : cap ≤ rest.length + (count + 1) := by
        simp [List.length_cons] at h2; omega
      have ih := summaryLines_spec cap rest (count + 1) (by omega) h2'
      have hcap : cap - count = (cap - (count + 1)) + 1 := by omega
      simp only [summaryLines, if_neg hc, ih, hcap, List.take_succ_cons, List.map_cons,
        List.cons_append]

/-- C1: the process exit status follows the fallback policy table — primary
fetch success exits 0; primary failure with `--no-insecure` exits 2 without
ever invoking the insecure git clone; primary failure with the fallback
allowed but the clone failing exits 3. -/
theorem exit_status_policy (args : Args) (env : Env) (fs0 : Option (List String)) :
    (env.snapshotOk = true → (mainRun args env fs0).exitCode = 0) ∧
    (env.snapshotOk = false → args.no_insecure = true →
      (mainRun args env fs0).exitCode = 2 ∧ Event.gitClone ∉ (mainRun args env fs0).events) ∧
    (env.snapshotOk = false → args.no_insecure = false → env.cloneOk = false →
      (mainRun args env fs0).exitCode = 3) := by
  obtain ⟨repo, out, token, nosym, force, noins⟩ := args
  obtain ⟨sOk, sFiles, cOk, cFiles, lfsF, lfsI, lfsP⟩ := env
  cases sOk <;> cases noins <;> cases cOk <;> cases force <;> cases lfsF <;>
    rcases fs0 with _ | ⟨d⟩ <;>
    simp [mainRun, run_insecure_git_clone]

/-- Witness for C1: one concrete run per row of the policy table. -/
theorem exit_status_policy_witness :
    (mainRun ⟨"r", "o", none, false, false, false⟩
        ⟨true, [], false, [], false, false, false⟩ none).exitCode = 0 ∧
    ((mainRun ⟨"r", "o", none, false, false, true⟩
        ⟨false, [], false, [], false, false, false⟩ none).exitCode = 2 ∧
      Event.gitClone ∉ (mainRun ⟨"r", "o", none, false, false, true⟩
        ⟨false, [], false, [], false, false, false⟩ none).events) ∧
    (mainRun ⟨"r", "o", none, false, false, false⟩
        ⟨false, [], false, [], false, false, false⟩ none).exitCode = 3 :=
  ⟨(exit_status_policy ⟨"r", "o", none, false, false, false⟩
      ⟨true, [], false, [], false, false, false⟩ none).1 rfl,
   (exit_status_policy ⟨"r", "o", none, false, false, true⟩
      ⟨false, [], false, [], false, false, false⟩ none).2.1 rfl rfl,
   (exit_status_policy ⟨"r", "o", none, false, false, false⟩
      ⟨false, [], false, [], false, false, false⟩ none).2.2 rfl rfl rfl⟩

/-- C2: the insecure git clone (TLS verification disabled) is invoked in a run
if and only if the primary snapshot download failed and the insecure fallback
was not disabled; in particular it is never invoked after a primary success. -/
theorem insecure_clone_reachability (args : Args) (env : Env) (fs0 : Option (List String)) :
    Event.gitClone ∈ (mainRun args env fs0).events ↔
      env.snapshotOk = false ∧ args.no_insecure = false := by
  obtain ⟨repo, out, token, nosym, force, noins⟩ := args
  obtain ⟨sOk, sFiles, cOk, cFiles, lfsF, lfsI, lfsP⟩ := env
  cases sOk <;> cases noins <;> cases cOk <;> cases force <;> cases lfsF <;>
    rcases fs0 with _ | ⟨d⟩ <;>
    simp [mainRun, run_insecure_git_clone]

/-- C3: the completeness check returns the empty missing list exactly when the
destination root holds `config.json`, one of the two weights names, and one of
the four tokenizer names; otherwise the result is exactly the labels of the
unmet requirements, in order. -/
theorem check_required_files_correct (out_dir : List String) :
    (check_required_files out_dir = [] ↔
      (hasFile out_dir "config.json" = true ∧
       (hasFile out_dir "model.safetensors" = true ∨ hasFile out_dir "pytorch_model.bin" = true) ∧
       (hasFile out_dir "tokenizer.json" = true ∨ hasFile out_dir "tokenizer_config.json" = true ∨
        hasFile out_dir "sentencepiece.bpe.model" = true ∨ hasFile out_dir "vocab.txt" = true))) ∧
    check_required_files out_dir =
      (if hasFile out_dir "config.json" then [] else ["config.json"]) ++
      (if hasFile out_dir "model.safetensors" || hasFile out_dir "pytorch_model.bin" then []
       else ["model.safetensors or pytorch_model.bin"]) ++
      (if hasFile out_dir "tokenizer.json" || hasFile out_dir "tokenizer_config.json" ||
          hasFile out_dir "sentencepiece.bpe.model" || hasFile out_dir "vocab.txt" then []
       else ["tokenizer.json or tokenizer_config.json or sentencepiece.bpe.model or vocab.txt"]) := by
  unfold check_required_files
  cases h1 : hasFile out_dir "config.json" <;>
  cases h2 : hasFile out_dir "model.safetensors" <;>
  cases h3 : hasFile out_dir "pytorch_model.bin" <;>
  cases h4 : hasFile out_dir "tokenizer.json" <;>
  cases h5 : hasFile out_dir "tokenizer_config.json" <;>
  cases h6 : hasFile out_dir "sentencepiece.bpe.model" <;>
  cases h7 : hasFile out_dir "vocab.txt" <;>
  simp [h1, h2, h3, h4, h5, h6, h7]

/-- C4 counterexample: with the destination existing, `--force` set, the
primary fetch failing and `--no-insecure` set, the run does exit with
status 2, but the destination is not unchanged — destination preparation
already deleted it. -/
theorem dest_changed_counterexample :
    (mainRun ⟨"r", "o", none, false, true, true⟩
        ⟨false, [], false, [], false, false, false⟩ (some ["x"])).exitCode = 2 ∧
    ¬ (mainRun ⟨"r", "o", none, false, true, true⟩
        ⟨false, [], false, [], false, false, false⟩ (some ["x"])).fsFinal = some ["x"] := by
  decide

/-- C4 (amended): when the primary fetch fails and the insecure fallback is
disabled, the process exits with status 2; and provided `--force` is not set
(or the destination did not exist, so there was nothing to delete), the
destination is unchanged from before the run. -/
theorem fallback_disabled_aborts_unchanged (args : Args) (env : Env)
    (fs0 : Option (List String)) (hs : env.snapshotOk = false)
    (hn : args.no_insecure = true) (hf : args.force = false ∨ fs0 = none) :
    (mainRun args env fs0).exitCode = 2 ∧ (mainRun args env fs0).fsFinal = fs0 := by
  obtain ⟨repo, out, token, nosym, force, noins⟩ := args
  obtain ⟨sOk, sFiles, cOk, cFiles, lfsF, lfsI, lfsP⟩ := env
  simp_all only []
  subst hs hn
  rcases hf with hf | hf
  · subst hf
    rcases fs0 with _ | ⟨d⟩ <;> simp [mainRun]
  · subst hf
    simp [mainRun]

/-- Witness for the amended C4: a concrete run without `--force` on an
existing destination exits 2 with the destination untouched. -/
theorem fallback_disabled_aborts_unchanged_witness :
    (mainRun ⟨"r", "o", none, false, false, true⟩
        ⟨false, [], false, [], false, false, false⟩ (some ["x"])).exitCode = 2 ∧
    (mainRun ⟨"r", "o", none, false, false, true⟩
        ⟨false, [], false, [], false, false, false⟩ (some ["x"])).fsFinal = some ["x"] :=
  fallback_disabled_aborts_unchanged ⟨"r", "o", none, false, false, true⟩
    ⟨false, [], false, [], false, false, false⟩ (some ["x"]) rfl rfl (Or.inl rfl)

/-- C5: completeness gaps are never fatal — whenever the download path
succeeded (primary success, or fallback allowed and its clone succeeding),
the run exits 0 and the completeness check did run and produced a report,
whatever its contents. -/
theorem completeness_gaps_never_fatal (args : Args) (env : Env)
    (fs0 : Option (List String))
    (h : env.snapshotOk = true ∨ (args.no_insecure = false ∧ env.cloneOk = true)) :
    (mainRun args env fs0).exitCode = 0 ∧
    (mainRun args env fs0).missingReport ≠ none := by
  obtain ⟨repo, out, token, nosym, force, noins⟩ := args
  obtain ⟨sOk, sFiles, cOk, cFiles, lfsF, lfsI, lfsP⟩ := env
  cases sOk <;> cases noins <;> cases cOk <;> cases force <;> cases lfsF <;>
    rcases fs0 with _ | ⟨d⟩ <;>
    simp_all [mainRun, run_insecure_git_clone]

/-- Witness for C5: a successful primary fetch into an empty destination
exits 0 even though every required item is reported missing. -/
theorem completeness_gaps_never_fatal_witness :
    ((mainRun ⟨"r", "o", none, false, false, false⟩
        ⟨true, [], false, [], false, false, false⟩ none).exitCode = 0 ∧
      (mainRun ⟨"r", "o", none, false, false, false⟩
        ⟨true, [], false, [], false, false, false⟩ none).missingReport ≠ none) ∧
    (mainRun ⟨"r", "o", none, false, false, false⟩
        ⟨true, [], false, [], false, false, false⟩ none).missingReport =
      some ["config.json", "model.safetensors or pytorch_model.bin",
        "tokenizer.json or tokenizer_config.json or sentencepiece.bpe.model or vocab.txt"] :=
  ⟨completeness_gaps_never_fatal ⟨"r", "o", none, false, false, false⟩
      ⟨true, [], false, [], false, false, false⟩ none (Or.inl rfl),
   by decide⟩

/-- C6: `modules.json` is advisory only — its absence never appears in the
missing list, its presence or absence in the destination never changes the
missing list (so it cannot affect the success message, which is decided by
that list alone), and its absence is reported exactly by the separate
warning. -/
theorem modules_json_advisory_only (out_dir : List String) :
    "modules.json" ∉ check_required_files out_dir ∧
    check_required_files ("modules.json" :: out_dir) = check_required_files out_dir ∧
    (check_required_files_warning out_dir = [] ↔ hasFile out_dir "modules.json" = true) := by
  refine ⟨?_, ?_, ?_⟩
  · rw [check_required_files_eq]
    split <;> split <;> split <;> simp_all
  · simp [check_required_files, hasFile_cons_ne]
  · unfold check_required_files_warning
    cases h : hasFile out_dir "modules.json" <;> simp [h]

/-- C7: on a destination tree with more than 40 files, `print_summary` prints
exactly the first 40 file entries (so at most 40) and then the truncation
notice immediately after the 40th entry. -/
theorem print_summary_truncates (name : String) (t : DirTree)
    (h : 40 < (DirTree.walkFiles t).length) :
    print_summary name t 40 =
      SummaryLine.header name ::
        (((DirTree.walkFiles t).take 40).map (fun p => SummaryLine.entry p.1 p.2) ++
          [SummaryLine.truncated 40]) ∧
    ((DirTree.walkFiles t).take 40).length = 40 := by
  constructor
  · unfold print_summary
    rw [summaryLines_spec 40 _ 0 (by omega) (by omega)]
  · simp [List.length_take]
    omega

/-- Witness for C7: a flat destination with 41 files. -/
theorem print_summary_truncates_witness :
    40 < (DirTree.walkFiles (DirTree.node (List.replicate 41 ("f", 0)) [])).length ∧
    (print_summary "d" (DirTree.node (List.replicate 41 ("f", 0)) []) 40 =
      SummaryLine.header "d" ::
        (((DirTree.walkFiles (DirTree.node (List.replicate 41 ("f", 0)) [])).take 40).map
            (fun p => SummaryLine.entry p.1 p.2) ++
          [SummaryLine.truncated 40]) ∧
      ((DirTree.walkFiles (DirTree.node (List.replicate 41 ("f", 0)) [])).take 40).length = 40) :=
  ⟨by decide,
   print_summary_truncates "d" (DirTree.node (List.replicate 41 ("f", 0)) []) (by decide)⟩

/-- C8: destination preparation never aborts — on an existing destination,
without `--force` the run warns and still proceeds to the download attempt,
and with `--force` the existing directory is removed first and the download
attempt follows. -/
theorem destination_preparation (repo out : String) (token : Option String)
    (nosym noins : Bool) (env : Env) (d : List String) :
    (∃ rest, (mainRun ⟨repo, out, token, nosym, false, noins⟩ env (some d)).events =
      Event.warnExisting :: Event.snapshotAttempt :: rest) ∧
    (∃ rest, (mainRun ⟨repo, out, token, nosym, true, noins⟩ env (some d)).events =
      Event.removeTree :: Event.snapshotAttempt :: rest) := by
  obtain ⟨sOk, sFiles, cOk, cFiles, lfsF, lfsI, lfsP⟩ := env
  constructor <;>
    (cases sOk <;> cases noins <;> cases cOk <;> cases lfsF <;>
      simp [mainRun, run_insecure_git_clone])

/-- C9: once the insecure git clone subprocess itself succeeds,
`run_insecure_git_clone` returns success whatever happens in the git-lfs
install/pull sub-steps, including when the git-lfs tool is not installed. -/
theorem lfs_substeps_never_affect_result (lfsToolFound lfsInstallOk lfsPullOk : Bool) :
    (run_insecure_git_clone true lfsToolFound lfsInstallOk lfsPullOk).1 = true := by
  cases lfsToolFound <;> rfl

/-- C10: on a destination tree with exactly 40 files, `print_summary` prints
all 40 file entries and still appends the truncation notice after them — the
notice fires when the printed count reaches the cap, not only when files
remain unlisted. -/
theorem print_summary_exact_cap (name : String) (t : DirTree)
    (h : (DirTree.walkFiles t).length = 40) :
    print_summary name t 40 =
      SummaryLine.header name ::
        ((DirTree.walkFiles t).map (fun p => SummaryLine.entry p.1 p.2) ++
          [SummaryLine.truncated 40]) := by
  unfold print_summary
  rw [summaryLines_spec 40 _ 0 (by omega) (by omega), Nat.sub_zero, ← h, List.take_length]

/-- Witness for C10: a flat destination with exactly 40 files. -/
theorem print_summary_exact_cap_witness :
    (DirTree.walkFiles (DirTree.node (List.replicate 40 ("g", 1)) [])).length = 40 ∧
    print_summary "d" (DirTree.node (List.replicate 40 ("g", 1)) []) 40 =
      SummaryLine.header "d" ::
        ((DirTree.walkFiles (DirTree.node (List.replicate 40 ("g", 1)) [])).map
            (fun p => SummaryLine.entry p.1 p.2) ++
          [SummaryLine.truncated 40]) :=
  ⟨by decide,
   print_summary_exact_cap "d" (DirTree.node (List.replicate 40 ("g", 1)) []) (by decide)⟩
